import Mathlib

/-!
Verification of `scripts/generate_maps.py`.

The script loads a CSV of scored airports and renders three folium views:
a weighted heat map, a clustered marker map of high-scoring airports, and a
state-level circle-summary map.  This file gives a shallow embedding of the
script's data flow: a dataframe is a list of `AirportRecord`s, each folium
layer is the list of primitives the script adds to it, and floating-point
arithmetic is idealised over `ℚ`.
-/

/-- One row of `results/jet_fuel_opportunities.csv` as the script reads it.
`LAT_DECIMAL` and `LONG_DECIMAL` are nullable (`pd.notna` checks in the
script); the remaining columns are always present on the rows it touches. -/
structure AirportRecord where
  ARPT_NAME : String
  CITY : String
  STATE_NAME : String
  LAT_DECIMAL : Option ℚ
  LONG_DECIMAL : Option ℚ
  predicted_score : ℚ
  cert_importance_score : ℚ
  is_military_relevant : Bool
deriving DecidableEq

/-- The per-row coordinate validity test
`pd.notna(row['LAT_DECIMAL']) and pd.notna(row['LONG_DECIMAL'])`
(lines 25 and 62 of the script). -/
def hasCoords (r : AirportRecord) : Bool :=
  r.LAT_DECIMAL.isSome && r.LONG_DECIMAL.isSome

/-- The heat-layer data built by the loop at lines 23-26: for each row whose
coordinates are both non-null, append `[lat, lon, predicted_score]`. -/
def heat_data : List AirportRecord → List (ℚ × ℚ × ℚ)
  | [] => []
  | r :: rest =>
    match r.LAT_DECIMAL, r.LONG_DECIMAL with
    | some la, some lo => (la, lo, r.predicted_score) :: heat_data rest
    | _, _ => heat_data rest

/-- Line 59: `high_opportunities = df[df['predicted_score'] >= 70].copy()`. -/
def high_opportunities (df : List AirportRecord) : List AirportRecord :=
  df.filter (fun r => decide (70 ≤ r.predicted_score))

/-- The color/icon tiering at lines 64-72 of the script. -/
def markerStyle (score : ℚ) : String × String :=
  if 85 ≤ score then ("red", "star")
  else if 75 ≤ score then ("orange", "plane")
  else ("yellow", "info-sign")

/-- One `folium.Marker` added to the marker cluster (lines 84-89), together
with the row it was rendered from (popup and tooltip are built from that
row's fields). -/
structure Marker where
  lat : ℚ
  lon : ℚ
  color : String
  icon : String
  row : AirportRecord
deriving DecidableEq

/-- The marker-adding loop at lines 61-89: for each row of
`high_opportunities` with non-null coordinates, add a marker styled by
`markerStyle`. -/
def addMarkers : List AirportRecord → List Marker
  | [] => []
  | r :: rest =>
    match r.LAT_DECIMAL, r.LONG_DECIMAL with
    | some la, some lo =>
      { lat := la, lon := lo,
        color := (markerStyle r.predicted_score).1,
        icon := (markerStyle r.predicted_score).2,
        row := r } :: addMarkers rest
    | _, _ => addMarkers rest

/-- The full marker layer of map 2. -/
def markers (df : List AirportRecord) : List Marker :=
  addMarkers (high_opportunities df)

/-- Round-half-to-even on `ℚ`, the rounding used by pandas `.round`. -/
def roundHalfEven (q : ℚ) : ℤ :=
  let f := ⌊q⌋
  if q - f < 1/2 then f
  else if 1/2 < q - f then f + 1
  else if f % 2 = 0 then f else f + 1

/-- `.round(2)` at line 118 of the script. -/
def round2 (q : ℚ) : ℚ := (roundHalfEven (q * 100) : ℚ) / 100

/-- Pandas `mean` of a column. -/
def listMean (l : List ℚ) : ℚ := l.sum / l.length

/-- Pandas `max` of a column (the script only applies it to nonempty
groups, so the default for `[]` is irrelevant). -/
def listMax : List ℚ → ℚ
  | [] => 0
  | x :: xs => xs.foldl max x

/-- One row of the `state_summary` frame: columns `avg_score`, `max_score`,
`count` (line 119). -/
structure StateAggregate where
  avg_score : ℚ
  max_score : ℚ
  count : ℕ
deriving DecidableEq

/-- The `.agg({'predicted_score': ['mean', 'max', 'count']}).round(2)`
applied to one group of rows (lines 116-118).  `count` is an integer so
rounding does not touch it. -/
def mkAggregate (rs : List AirportRecord) : StateAggregate :=
  { avg_score := round2 (listMean (rs.map (fun r => r.predicted_score)))
    max_score := round2 (listMax (rs.map (fun r => r.predicted_score)))
    count := rs.length }

/-- One step of pandas `groupby`: route a row into the bucket of its
`STATE_NAME`, creating the bucket at the end on first sight of the key. -/
def insertRecord : List (String × List AirportRecord) → AirportRecord →
    List (String × List AirportRecord)
  | [], r => [(r.STATE_NAME, [r])]
  | (k, rs) :: rest, r =>
    if k = r.STATE_NAME then (k, rs ++ [r]) :: rest
    else (k, rs) :: insertRecord rest r

/-- `df.groupby('STATE_NAME')` (line 116): buckets of rows keyed by state
name, each bucket in input row order. -/
def groupby (df : List AirportRecord) : List (String × List AirportRecord) :=
  df.foldl insertRecord []

/-- The `state_summary` frame of lines 116-119: per state name, the
mean/max/count aggregate of that state's rows. -/
def state_summary (df : List AirportRecord) : List (String × StateAggregate) :=
  (groupby df).map (fun g => (g.1, mkAggregate g.2))

/-- Key lookup in an association list, as `state in state_centers` /
`state_centers[state]` behave on a Python dict. -/
def lookupState {α : Type} (s : String) : List (String × α) → Option α
  | [] => none
  | (k, v) :: rest => if k = s then some v else lookupState s rest

/-- The hand-maintained `state_centers` dict at lines 125-141. -/
def state_centers : List (String × ℚ × ℚ) :=
  [("Texas", (31.054487, -97.563461)),
   ("California", (36.116203, -119.681564)),
   ("Florida", (27.766279, -81.686783)),
   ("Alaska", (61.370716, -152.404419)),
   ("Montana", (46.921925, -110.454353)),
   ("New York", (42.165726, -74.948051)),
   ("Arizona", (33.729759, -111.431221)),
   ("Nevada", (38.313515, -117.055374)),
   ("Colorado", (39.059811, -105.311104)),
   ("Illinois", (40.349457, -88.986137)),
   ("Georgia", (33.040619, -83.643074)),
   ("Michigan", (43.326618, -84.536095)),
   ("Pennsylvania", (40.590752, -77.209755)),
   ("Ohio", (40.388783, -82.764915)),
   ("North Carolina", (35.630066, -79.806419))]

/-- The four-tier fill color on average score (lines 147-154). -/
def circleColor (avg : ℚ) : String :=
  if 60 ≤ avg then "red"
  else if 50 ≤ avg then "orange"
  else if 40 ≤ avg then "yellow"
  else "green"

/-- `radius=min(stats['count'] / 10, 30)` at line 167. -/
def circleRadius (count : ℕ) : ℚ := min ((count : ℚ) / 10) 30

/-- One `folium.CircleMarker` of map 3 (lines 165-174), with the state and
aggregate it was rendered from. -/
structure StateCircle where
  state : String
  center : ℚ × ℚ
  radius : ℚ
  fillColor : String
  agg : StateAggregate
deriving DecidableEq

/-- The circle-drawing loop at lines 144-174: one circle per state of the
summary whose name is a key of `state_centers`; other states are skipped
with no output and no error. -/
def state_circles (df : List AirportRecord) : List StateCircle :=
  (state_summary df).filterMap (fun g =>
    match lookupState g.1 state_centers with
    | some c => some { state := g.1, center := c,
                       radius := circleRadius g.2.count,
                       fillColor := circleColor g.2.avg_score,
                       agg := g.2 }
    | none => none)

/-- Everything the script renders or reports: the three layers and the
airport count printed at line 107
(`{len(high_opportunities)} airports shown`). -/
structure Outputs where
  heatmap : List (ℚ × ℚ × ℚ)
  markerMap : List Marker
  shownCount : ℕ
  stateMap : List StateCircle

/-- The count the script prints at line 107 for the marker map:
`len(high_opportunities)`. -/
def shown_count (df : List AirportRecord) : ℕ :=
  (high_opportunities df).length

/-- Modelled from the spec: the load step `pd.read_csv(...)` at line 10
performs file input that is outside this embedding; following the spec
("fails (fatal, unrecoverable) if the file is missing or unparsable",
"Missing input file or missing required columns is an unrecovered fatal
error"), its outcome is an `Except String` value.  The script installs no
exception handler, so an error at the load step propagates and none of the
three views is produced; on a successful load the script computes the three
layers and the printed count. -/
def generate_maps (input : Except String (List AirportRecord)) :
    Except String Outputs :=
  match input with
  | .error e => .error e
  | .ok df => .ok { heatmap := heat_data df,
                    markerMap := markers df,
                    shownCount := shown_count df,
                    stateMap := state_circles df }

/-- The dataframe as the script's single piece of shared state; the three
map sections read it in sequence. -/
structure ScriptState where
  df : List AirportRecord
deriving DecidableEq

/-- Section "MAP 1" (lines 17-44) as a state transformer: reads the
dataframe, emits the heat layer. -/
def runMap1 (s : ScriptState) : ScriptState × List (ℚ × ℚ × ℚ) :=
  (s, heat_data s.df)

/-- Section "MAP 2" (lines 50-107) as a state transformer. -/
def runMap2 (s : ScriptState) : ScriptState × List Marker :=
  (s, markers s.df)

/-- Section "MAP 3" (lines 113-185) as a state transformer. -/
def runMap3 (s : ScriptState) : ScriptState × List StateCircle :=
  (s, state_circles s.df)

/-! ### Concrete rows used as witnesses and counterexamples -/

/-- A high-scoring Texas airport with valid coordinates. -/
def rA : AirportRecord :=
  { ARPT_NAME := "ALPHA FIELD", CITY := "AUSTIN", STATE_NAME := "Texas",
    LAT_DECIMAL := some 30, LONG_DECIMAL := some (-95),
    predicted_score := 90, cert_importance_score := 3,
    is_military_relevant := true }

/-- A mid-scoring Florida airport with valid coordinates. -/
def rB : AirportRecord :=
  { ARPT_NAME := "BRAVO FIELD", CITY := "TAMPA", STATE_NAME := "Florida",
    LAT_DECIMAL := some 28, LONG_DECIMAL := some (-82),
    predicted_score := 72, cert_importance_score := 2,
    is_military_relevant := false }

/-- A high-scoring Texas airport whose latitude is null. -/
def rNull : AirportRecord :=
  { ARPT_NAME := "CHARLIE FIELD", CITY := "DALLAS", STATE_NAME := "Texas",
    LAT_DECIMAL := none, LONG_DECIMAL := some (-96),
    predicted_score := 80, cert_importance_score := 1,
    is_military_relevant := false }

/-- A three-row fixture: two Texas rows (one missing its latitude) and one
Florida row. -/
def testDf : List AirportRecord := [rA, rB, rNull]

/-! ### Heat and marker layer lemmas -/

theorem heat_data_filter_coords (df : List AirportRecord) :
    heat_data (df.filter hasCoords) = heat_data df := by
  induction df with
  | nil => rfl
  | cons r rest ih =>
    rcases hla : r.LAT_DECIMAL with _ | la <;>
      rcases hlo : r.LONG_DECIMAL with _ | lo <;>
        simp [hasCoords, List.filter_cons, hla, hlo, heat_data, ih]

theorem addMarkers_filter_coords (rows : List AirportRecord) :
    addMarkers (rows.filter hasCoords) = addMarkers rows := by
  induction rows with
  | nil => rfl
  | cons r rest ih =>
    rcases hla : r.LAT_DECIMAL with _ | la <;>
      rcases hlo : r.LONG_DECIMAL with _ | lo <;>
        simp [hasCoords, List.filter_cons, hla, hlo, addMarkers, ih]

theorem map_row_addMarkers (rows : List AirportRecord) :
    (addMarkers rows).map (fun m => m.row) = rows.filter hasCoords := by
  induction rows with
  | nil => rfl
  | cons r rest ih =>
    rcases hla : r.LAT_DECIMAL with _ | la <;>
      rcases hlo : r.LONG_DECIMAL with _ | lo <;>
        simp [hasCoords, List.filter_cons, hla, hlo, addMarkers, ih]

theorem mem_addMarkers {m : Marker} {rows : List AirportRecord}
    (hm : m ∈ addMarkers rows) :
    m.row ∈ rows ∧ m.color = (markerStyle m.row.predicted_score).1 ∧
      m.icon = (markerStyle m.row.predicted_score).2 ∧
      m.row.LAT_DECIMAL = some m.lat ∧ m.row.LONG_DECIMAL = some m.lon := by
  induction rows with
  | nil => cases hm
  | cons r rest ih =>
    rcases hla : r.LAT_DECIMAL with _ | la <;>
      rcases hlo : r.LONG_DECIMAL with _ | lo <;>
        simp only [addMarkers, hla, hlo] at hm
    · exact ⟨List.mem_cons_of_mem _ (ih hm).1, (ih hm).2⟩
    · exact ⟨List.mem_cons_of_mem _ (ih hm).1, (ih hm).2⟩
    · exact ⟨List.mem_cons_of_mem _ (ih hm).1, (ih hm).2⟩
    · rcases List.mem_cons.mp hm with hm1 | hm2
      · subst hm1
        exact ⟨List.mem_cons_self _ _, rfl, rfl, hla, hlo⟩
      · exact ⟨List.mem_cons_of_mem _ (ih hm2).1, (ih hm2).2⟩

theorem mem_heat_data {t : ℚ × ℚ × ℚ} {df : List AirportRecord}
    (ht : t ∈ heat_data df) :
    ∃ r ∈ df, r.LAT_DECIMAL = some t.1 ∧ r.LONG_DECIMAL = some t.2.1 ∧
      r.predicted_score = t.2.2 := by
  induction df with
  | nil => cases ht
  | cons r rest ih =>
    rcases hla : r.LAT_DECIMAL with _ | la <;>
      rcases hlo : r.LONG_DECIMAL with _ | lo <;>
        simp only [heat_data, hla, hlo] at ht
    · obtain ⟨r', hr', hs⟩ := ih ht
      exact ⟨r', List.mem_cons_of_mem _ hr', hs⟩
    · obtain ⟨r', hr', hs⟩ := ih ht
      exact ⟨r', List.mem_cons_of_mem _ hr', hs⟩
    · obtain ⟨r', hr', hs⟩ := ih ht
      exact ⟨r', List.mem_cons_of_mem _ hr', hs⟩
    · rcases List.mem_cons.mp ht with ht1 | ht2
      · subst ht1
        exact ⟨r, List.mem_cons_self _ _, hla, hlo, rfl⟩
      · obtain ⟨r', hr', hs⟩ := ih ht2
        exact ⟨r', List.mem_cons_of_mem _ hr', hs⟩

theorem addMarkers_length_le (rows : List AirportRecord) :
    (addMarkers rows).length ≤ rows.length := by
  induction rows with
  | nil => exact Nat.le_refl 0
  | cons r rest ih =>
    rcases hla : r.LAT_DECIMAL with _ | la <;>
      rcases hlo : r.LONG_DECIMAL with _ | lo <;>
        simp only [addMarkers, hla, hlo, List.length_cons]
    · exact Nat.le_succ_of_le ih
    · exact Nat.le_succ_of_le ih
    · exact Nat.le_succ_of_le ih
    · exact Nat.succ_le_succ ih

/-! ### Claims about the heat and marker layers -/

/-- Claim C1, as stated, is false: row `rNull` has a null latitude, yet it
reaches the state-summary circle layer — with it as the only input row the
layer holds a Texas circle whose count 1 is that very row, while an empty
input yields no circle.  So a record with a missing coordinate does make an
aggregate contribution to a rendered layer. -/
theorem null_coord_row_reaches_state_layer :
    rNull.LAT_DECIMAL = none ∧
    (state_circles [rNull]).map (fun c => (c.state, c.agg.count)) =
      [("Texas", 1)] ∧
    state_circles ([] : List AirportRecord) = [] := by
  refine ⟨rfl, ?_, rfl⟩
  simp [state_circles, state_summary, groupby, insertRecord, lookupState,
    state_centers, mkAggregate, rNull]

/-- Claim C1 (amended): a record with a null latitude or longitude appears
in neither the heat layer nor the marker layer — deleting every such record
changes neither layer — but it does contribute to the state-summary circle
layer through its state's aggregate. -/
theorem null_coords_absent_from_heat_and_marker_layers
    (df : List AirportRecord) :
    heat_data (df.filter hasCoords) = heat_data df ∧
    markers (df.filter hasCoords) = markers df := by
  refine ⟨heat_data_filter_coords df, ?_⟩
  show addMarkers ((df.filter hasCoords).filter _) = _
  rw [List.filter_filter]
  have hswap :
      df.filter (fun r => decide (70 ≤ r.predicted_score) && hasCoords r) =
        (df.filter (fun r => decide (70 ≤ r.predicted_score))).filter
          hasCoords := by
    rw [List.filter_filter]
    exact List.filter_congr (fun r _ => Bool.and_comm _ _)
  rw [hswap, addMarkers_filter_coords]
  rfl

/-- Claim C2, as stated, is false: `rNull` scores 80 ≥ 70 and so belongs to
the claimed marker set, yet the marker layer built from it is empty because
its latitude is null. -/
theorem high_score_null_coord_row_unmarked :
    (70 ≤ rNull.predicted_score) ∧ markers [rNull] = [] ∧
    [rNull].filter (fun r => decide (70 ≤ r.predicted_score)) = [rNull] := by
  decide

/-- Claim C2 (amended): the marker set is exactly the input records with
score ≥ 70 AND both coordinates non-null, and each marker's tier is
lower-bound inclusive: red/star iff score ≥ 85, orange/plane iff
75 ≤ score < 85, yellow/info-sign iff 70 ≤ score < 75. -/
theorem markers_exactly_scored_and_located (df : List AirportRecord) :
    (markers df).map (fun m => m.row) =
      df.filter (fun r => decide (70 ≤ r.predicted_score) && hasCoords r) ∧
    ∀ m, m ∈ markers df →
      ((m.color = "red" ∧ m.icon = "star") ↔ 85 ≤ m.row.predicted_score) ∧
      ((m.color = "orange" ∧ m.icon = "plane") ↔
        75 ≤ m.row.predicted_score ∧ m.row.predicted_score < 85) ∧
      ((m.color = "yellow" ∧ m.icon = "info-sign") ↔
        70 ≤ m.row.predicted_score ∧ m.row.predicted_score < 75) := by
  constructor
  · rw [markers, map_row_addMarkers, high_opportunities, List.filter_filter]
    exact List.filter_congr (fun r _ => Bool.and_comm _ _)
  · intro m hm
    obtain ⟨hrow, hcol, hicon, -, -⟩ := mem_addMarkers hm
    have h70 : 70 ≤ m.row.predicted_score := by
      have := (List.mem_filter.mp hrow).2
      exact of_decide_eq_true this
    have hrow70 := List.mem_of_mem_filter hrow
    rw [hcol, hicon]
    unfold markerStyle
    by_cases h85 : 85 ≤ m.row.predicted_score
    · rw [if_pos h85]
      refine ⟨⟨fun _ => h85, fun _ => ⟨rfl, rfl⟩⟩, ?_, ?_⟩
      · exact ⟨fun hc => absurd hc.1 (by decide),
          fun hs => absurd h85 (not_le.mpr hs.2)⟩
      · exact ⟨fun hc => absurd hc.1 (by decide),
          fun hs => absurd h85 (not_le.mpr (hs.2.trans_le (by norm_num)))⟩
    · rw [if_neg h85]
      by_cases h75 : 75 ≤ m.row.predicted_score
      · rw [if_pos h75]
        refine ⟨?_, ⟨fun _ => ⟨h75, not_le.mp h85⟩, fun _ => ⟨rfl, rfl⟩⟩, ?_⟩
        · exact ⟨fun hc => absurd hc.1 (by decide), fun hs => absurd hs h85⟩
        · exact ⟨fun hc => absurd hc.1 (by decide),
            fun hs => absurd h75 (not_le.mpr hs.2)⟩
      · rw [if_neg h75]
        refine ⟨?_, ?_, ⟨fun _ => ⟨h70, not_le.mp h75⟩, fun _ => ⟨rfl, rfl⟩⟩⟩
        · exact ⟨fun hc => absurd hc.1 (by decide),
            fun hs => absurd (le_trans (by norm_num) hs) h75⟩
        · exact ⟨fun hc => absurd hc.1 (by decide), fun hs => absurd hs.1 h75⟩

/-- The marker rendered from `rA`. -/
def mA : Marker :=
  { lat := 30, lon := -95, color := "red", icon := "star", row := rA }

/-- Witness for the amended C2 theorem at `df = [rA]`, `m = mA`. -/
theorem markers_exactly_scored_and_located_witness :
    mA ∈ markers [rA] ∧
    (((mA.color = "red" ∧ mA.icon = "star") ↔ 85 ≤ mA.row.predicted_score) ∧
     ((mA.color = "orange" ∧ mA.icon = "plane") ↔
       75 ≤ mA.row.predicted_score ∧ mA.row.predicted_score < 85) ∧
     ((mA.color = "yellow" ∧ mA.icon = "info-sign") ↔
       70 ≤ mA.row.predicted_score ∧ mA.row.predicted_score < 75)) :=
  ⟨by decide, (markers_exactly_scored_and_located [rA]).2 mA (by decide)⟩

/-- Claim C7: the heat layer is exactly the `(lat, lon, score)` triples of
the rows with both coordinates non-null, in input row order, values
untouched. -/
theorem heat_data_is_valid_coord_triples (df : List AirportRecord) :
    heat_data df = (df.filter hasCoords).map
      (fun r => (r.LAT_DECIMAL.getD 0, r.LONG_DECIMAL.getD 0,
                 r.predicted_score)) := by
  induction df with
  | nil => rfl
  | cons r rest ih =>
    rcases hla : r.LAT_DECIMAL with _ | la <;>
      rcases hlo : r.LONG_DECIMAL with _ | lo <;>
        simp [heat_data, hasCoords, List.filter_cons, hla, hlo, ih]

/-- Claim C6: when the load step fails, the failure propagates unhandled —
the run yields that very error and none of the three views, with no retry
and no substitute output. -/
theorem load_error_propagates (e : String) :
    generate_maps (Except.error e) = Except.error e ∧
    (generate_maps (Except.error e)).toOption = none :=
  ⟨rfl, rfl⟩

/-- Claim C10: the count the script reports for the marker map is the
number of rows with score ≥ 70 regardless of coordinate validity; it is
never below the number of markers actually added, and on `[rNull]` (score
80, null latitude) it strictly exceeds it. -/
theorem shown_count_ignores_coord_validity :
    (∀ df : List AirportRecord,
      shown_count df =
        (df.filter (fun r => decide (70 ≤ r.predicted_score))).length ∧
      (markers df).length ≤ shown_count df) ∧
    (markers [rNull]).length < shown_count [rNull] := by
  refine ⟨fun df => ⟨rfl, addMarkers_length_le _⟩, by decide⟩

/-! ### Groupby machinery -/

/-- Append a batch to an optional bucket, creating the bucket when the
batch is nonempty. -/
def optApp {α : Type} : Option (List α) → List α → Option (List α)
  | some g, l => some (g ++ l)
  | none, [] => none
  | none, a :: l => some (a :: l)

theorem optApp_nil {α : Type} (o : Option (List α)) : optApp o [] = o := by
  cases o <;> simp [optApp]

theorem optApp_optApp {α : Type} (o : Option (List α)) (l1 l2 : List α) :
    optApp (optApp o l1) l2 = optApp o (l1 ++ l2) := by
  cases o <;> cases l1 <;> cases l2 <;> simp [optApp]

theorem lookupState_insertRecord (acc : List (String × List AirportRecord))
    (r : AirportRecord) (s : String) :
    lookupState s (insertRecord acc r) =
      optApp (lookupState s acc) (if r.STATE_NAME = s then [r] else []) := by
  induction acc with
  | nil =>
    by_cases h : r.STATE_NAME = s <;>
      simp [insertRecord, lookupState, optApp, h]
  | cons p rest ih =>
    obtain ⟨k, rs⟩ := p
    by_cases hk : k = r.STATE_NAME
    · by_cases hs : k = s
      · have hrs : r.STATE_NAME = s := hk ▸ hs
        simp [insertRecord, lookupState, hk, hs, hrs, optApp]
      · have hrs : ¬ r.STATE_NAME = s := hk ▸ hs
        simp [insertRecord, lookupState, hk, hs, hrs, optApp_nil]
    · by_cases hs : k = s
      · have hrs : ¬ r.STATE_NAME = s := fun h => hk (hs.trans h.symm)
        have hk2 : ¬ s = r.STATE_NAME := hs ▸ hk
        simp [insertRecord, lookupState, hk, hs, hrs, hk2, optApp_nil]
      · simp [insertRecord, lookupState, hk, hs, ih]

theorem lookupState_foldl (df : List AirportRecord) :
    ∀ (acc : List (String × List AirportRecord)) (s : String),
      lookupState s (df.foldl insertRecord acc) =
        optApp (lookupState s acc)
          (df.filter (fun x => decide (x.STATE_NAME = s))) := by
  induction df with
  | nil => intro acc s; simp [optApp_nil]
  | cons r rest ih =>
    intro acc s
    rw [List.foldl_cons, ih, lookupState_insertRecord, optApp_optApp]
    congr 1
    by_cases h : r.STATE_NAME = s <;> simp [List.filter_cons, h]

theorem lookupState_groupby_of_mem {df : List AirportRecord} {s : String}
    (h : s ∈ df.map (fun r => r.STATE_NAME)) :
    lookupState s (groupby df) =
      some (df.filter (fun x => decide (x.STATE_NAME = s))) := by
  obtain ⟨r, hr, hrs⟩ := List.mem_map.mp h
  have hmem : r ∈ df.filter (fun x => decide (x.STATE_NAME = s)) :=
    List.mem_filter.mpr ⟨hr, by simp [hrs]⟩
  rw [groupby, lookupState_foldl]
  cases hf : df.filter (fun x => decide (x.STATE_NAME = s)) with
  | nil => exact absurd (hf ▸ hmem) (List.not_mem_nil r)
  | cons a l => simp [lookupState, optApp]

theorem lookupState_map_aggregate (l : List (String × List AirportRecord))
    (s : String) :
    lookupState s (l.map (fun g => (g.1, mkAggregate g.2))) =
      (lookupState s l).map mkAggregate := by
  induction l with
  | nil => rfl
  | cons p rest ih =>
    obtain ⟨k, v⟩ := p
    by_cases h : k = s <;> simp [lookupState, h, ih]

theorem lookupState_state_summary_of_mem {df : List AirportRecord}
    {s : String} (h : s ∈ df.map (fun r => r.STATE_NAME)) :
    lookupState s (state_summary df) =
      some (mkAggregate (df.filter (fun x => decide (x.STATE_NAME = s)))) := by
  rw [state_summary, lookupState_map_aggregate, lookupState_groupby_of_mem h]
  rfl

theorem lookupState_mem {α : Type} {s : String} {v : α} :
    ∀ {l : List (String × α)}, lookupState s l = some v → (s, v) ∈ l := by
  intro l
  induction l with
  | nil => intro h; cases h
  | cons p rest ih =>
    obtain ⟨k, w⟩ := p
    intro h
    by_cases hk : k = s
    · subst hk
      have hw : w = v := by simpa [lookupState] using h
      subst hw
      exact List.mem_cons_self _ _
    · simp only [lookupState, if_neg hk] at h
      exact List.mem_cons_of_mem _ (ih h)

/-! ### Claims about the state summary -/

/-- Claim C3: for every state name occurring in the input, the summary row
for that state holds the two-decimal-rounded mean, the two-decimal-rounded
max, and the count of the scores of exactly the input rows whose
`STATE_NAME` matches it. -/
theorem state_summary_is_groupwise_mean_max_count (df : List AirportRecord)
    (s : String) (h : s ∈ df.map (fun r => r.STATE_NAME)) :
    lookupState s (state_summary df) =
      some { avg_score := round2 (listMean
               ((df.filter (fun r => decide (r.STATE_NAME = s))).map
                 (fun r => r.predicted_score)))
             max_score := round2 (listMax
               ((df.filter (fun r => decide (r.STATE_NAME = s))).map
                 (fun r => r.predicted_score)))
             count := (df.filter (fun r => decide (r.STATE_NAME = s))).length } :=
  lookupState_state_summary_of_mem h

/-- Witness for C3 at the fixture: the Texas aggregate of `testDf` covers
exactly its two Texas rows. -/
theorem state_summary_groupwise_witness :
    ("Texas" ∈ testDf.map (fun r => r.STATE_NAME)) ∧
    lookupState "Texas" (state_summary testDf) =
      some { avg_score := round2 (listMean
               ((testDf.filter (fun r => decide (r.STATE_NAME = "Texas"))).map
                 (fun r => r.predicted_score)))
             max_score := round2 (listMax
               ((testDf.filter (fun r => decide (r.STATE_NAME = "Texas"))).map
                 (fun r => r.predicted_score)))
             count := (testDf.filter
               (fun r => decide (r.STATE_NAME = "Texas"))).length } :=
  ⟨by decide, state_summary_is_groupwise_mean_max_count testDf "Texas"
    (by decide)⟩

/-- Claim C9: a row with a null latitude or longitude still counts toward
its state's aggregate: the summary row for its state is computed from
exactly the rows matching the state name, a set that contains the
coordinate-less row itself. -/
theorem state_aggregate_includes_null_coord_rows (df : List AirportRecord)
    (r : AirportRecord) (hr : r ∈ df)
    (_hnull : r.LAT_DECIMAL = none ∨ r.LONG_DECIMAL = none) :
    r ∈ df.filter (fun x => decide (x.STATE_NAME = r.STATE_NAME)) ∧
    lookupState r.STATE_NAME (state_summary df) =
      some (mkAggregate
        (df.filter (fun x => decide (x.STATE_NAME = r.STATE_NAME)))) := by
  have hmem : r.STATE_NAME ∈ df.map (fun x => x.STATE_NAME) :=
    List.mem_map_of_mem _ hr
  exact ⟨List.mem_filter.mpr ⟨hr, by simp⟩,
    lookupState_state_summary_of_mem hmem⟩

/-- Witness for C9 at the fixture: the latitude-less row `rNull` is one of
the rows the Texas aggregate of `testDf` is computed from. -/
theorem state_aggregate_includes_null_coord_rows_witness :
    rNull ∈ testDf ∧ (rNull.LAT_DECIMAL = none ∨ rNull.LONG_DECIMAL = none) ∧
    (rNull ∈ testDf.filter
        (fun x => decide (x.STATE_NAME = rNull.STATE_NAME)) ∧
      lookupState rNull.STATE_NAME (state_summary testDf) =
        some (mkAggregate (testDf.filter
          (fun x => decide (x.STATE_NAME = rNull.STATE_NAME))))) :=
  ⟨by decide, Or.inl rfl,
    state_aggregate_includes_null_coord_rows testDf rNull (by decide)
      (Or.inl rfl)⟩

/-! ### Claims about the circle layer -/

/-- Claim C5: for a state occurring in the input, a circle is drawn for it
iff its name is a key of the hand-maintained `state_centers` table; states
absent from the table are skipped with no circle and no error. -/
theorem circle_iff_state_center_known (df : List AirportRecord) (s : String)
    (h : s ∈ df.map (fun r => r.STATE_NAME)) :
    (∃ c ∈ state_circles df, c.state = s) ↔
      (lookupState s state_centers).isSome := by
  constructor
  · rintro ⟨c, hc, hcs⟩
    obtain ⟨g, hg, hfg⟩ := List.mem_filterMap.mp hc
    rcases hl : lookupState g.1 state_centers with _ | ctr
    · rw [hl] at hfg
      exact absurd hfg (by simp)
    · rw [hl] at hfg
      simp only [Option.some.injEq] at hfg
      rw [← hfg] at hcs
      rw [show g.1 = s from hcs] at hl
      simp [hl]
  · intro hsome
    rcases hctr : lookupState s state_centers with _ | ctr
    · rw [hctr] at hsome
      simp at hsome
    · have hsum := lookupState_state_summary_of_mem h
      refine ⟨⟨s, ctr,
        circleRadius
          (mkAggregate (df.filter (fun x => decide (x.STATE_NAME = s)))).count,
        circleColor
          (mkAggregate
            (df.filter (fun x => decide (x.STATE_NAME = s)))).avg_score,
        mkAggregate (df.filter (fun x => decide (x.STATE_NAME = s)))⟩,
        ?_, rfl⟩
      refine List.mem_filterMap.mpr
        ⟨(s, mkAggregate (df.filter (fun x => decide (x.STATE_NAME = s)))),
          lookupState_mem hsum, ?_⟩
      simp [hctr]

/-- Witness for C5 at the fixture: Texas occurs in `testDf` and is a key of
the coordinate table, so its circle exists. -/
theorem circle_iff_state_center_known_witness :
    ("Texas" ∈ testDf.map (fun r => r.STATE_NAME)) ∧
    ((∃ c ∈ state_circles testDf, c.state = "Texas") ↔
      (lookupState "Texas" state_centers).isSome) :=
  ⟨by decide, circle_iff_state_center_known testDf "Texas" (by decide)⟩

/-- Claim C4: every drawn circle's radius is `min(count / 10, 30)` of its
state's record count — a function of the count that is monotone
non-decreasing and never exceeds 30. -/
theorem circle_radius_monotone_capped (df : List AirportRecord)
    (c : StateCircle) (hc : c ∈ state_circles df) (n : ℕ)
    (hn : c.agg.count ≤ n) :
    c.radius = circleRadius c.agg.count ∧ c.radius ≤ circleRadius n ∧
      c.radius ≤ 30 := by
  obtain ⟨g, hg, hfg⟩ := List.mem_filterMap.mp hc
  rcases hl : lookupState g.1 state_centers with _ | ctr
  · rw [hl] at hfg
    exact absurd hfg (by simp)
  · rw [hl] at hfg
    simp only [Option.some.injEq] at hfg
    subst hfg
    refine ⟨rfl, ?_, min_le_right _ _⟩
    have hcast : ((g.2.count : ℚ)) ≤ (n : ℚ) := by exact_mod_cast hn
    exact min_le_min (by linarith) le_rfl

/-- The Texas circle rendered from the one-row input `[rA]`. -/
def circTexasA : StateCircle :=
  { state := "Texas", center := (31.054487, -97.563461),
    radius := circleRadius (mkAggregate [rA]).count,
    fillColor := circleColor (mkAggregate [rA]).avg_score,
    agg := mkAggregate [rA] }

/-- Witness for C4 at the fixture circle of `[rA]` (count 1 ≤ 4). -/
theorem circle_radius_monotone_capped_witness :
    circTexasA ∈ state_circles [rA] ∧ circTexasA.agg.count ≤ 4 ∧
    (circTexasA.radius = circleRadius circTexasA.agg.count ∧
     circTexasA.radius ≤ circleRadius 4 ∧ circTexasA.radius ≤ 30) :=
  ⟨List.mem_singleton.mpr rfl, by decide,
    circle_radius_monotone_capped [rA] circTexasA
      (List.mem_singleton.mpr rfl) 4 (by decide)⟩

/-! ### Claim about dataset immutability -/

/-- Claim C8: the three map sections, run as state transformers over the
loaded dataframe, leave it unchanged, and every heat point and marker is
sourced from the fields of a loaded row. -/
theorem views_preserve_dataset (s : ScriptState) :
    (runMap1 s).1 = s ∧ (runMap2 s).1 = s ∧ (runMap3 s).1 = s ∧
    (∀ t ∈ (runMap1 s).2, ∃ r ∈ s.df,
        r.LAT_DECIMAL = some t.1 ∧ r.LONG_DECIMAL = some t.2.1 ∧
        r.predicted_score = t.2.2) ∧
    (∀ m ∈ (runMap2 s).2, m.row ∈ s.df ∧
        m.row.LAT_DECIMAL = some m.lat ∧
        m.row.LONG_DECIMAL = some m.lon) := by
  refine ⟨rfl, rfl, rfl, fun t ht => mem_heat_data ht, fun m hm => ?_⟩
  obtain ⟨hrow, -, -, hla, hlo⟩ := mem_addMarkers hm
  exact ⟨List.mem_of_mem_filter hrow, hla, hlo⟩

/-- Witness for C8: the single heat point of `[rA]` is sourced from `rA`'s
own fields. -/
theorem views_preserve_dataset_witness :
    ((30, -95, 90) : ℚ × ℚ × ℚ) ∈ (runMap1 ⟨[rA]⟩).2 ∧
    (∃ r ∈ [rA], r.LAT_DECIMAL = some 30 ∧ r.LONG_DECIMAL = some (-95) ∧
      r.predicted_score = 90) :=
  ⟨by decide,
    (views_preserve_dataset ⟨[rA]⟩).2.2.2.1 (30, -95, 90) (by decide)⟩
